import Mathlib

/-!
Verification of the employee-payroll system in `NUEVO_DAMIAN.py`.

The file shallowly embeds the program's core: the `Empleado` entity and its
validating constructor, the snapshot repository (`crear`, `obtener`, `listar`,
`actualizar`, `eliminar`) over the employee snapshot file, the payroll
computation (`DetalleNomina`, `Nomina`, `generar_nomina_mensual`) and the
statistics generator (`generar_estadisticas`).  Monetary amounts are modelled
as exact rationals; Python's `round(x, 2)` is modelled as round-half-to-even
on the exact value.  The snapshot file's contents are modelled as a
`List RegistroEmpleado`; an operation that can raise returns the raised
message (and the file contents it leaves behind) explicitly.
-/

set_option autoImplicit false

namespace Damian

/-- The ASCII whitespace characters removed by Python's `str.strip()`. -/
def esEspacio (c : Char) : Bool :=
  c = ' ' || c = '\t' || c = '\n' || c = '\r' || c = '\x0b' || c = '\x0c'

/-- Python's `not s.strip()`: the string contains only whitespace. -/
def esBlanco (s : String) : Bool :=
  s.toList.all esEspacio

/-- Round a rational to the nearest integer, ties to even: Python's `round`
to zero digits (banker's rounding). -/
def redondeoBanquero (q : ℚ) : ℤ :=
  let f : ℤ := ⌊q⌋
  let r : ℚ := q - (f : ℚ)
  if r < 1/2 then f
  else if 1/2 < r then f + 1
  else if f % 2 = 0 then f else f + 1

/-- Python's `round(q, 2)` on the exact value: banker's rounding to two
decimal places. -/
def round2 (q : ℚ) : ℚ :=
  (redondeoBanquero (q * 100) : ℚ) / 100

/-- The `Empleado` dataclass: its five fields. -/
structure Empleado where
  cedula : String
  nombre : String
  sueldo : ℚ
  departamento : String
  cargo : String
  deriving DecidableEq, Repr

/-- Error message raised by `validar_entrada` for a blank string argument. -/
def mensajeTexto : String := "Los campos de texto no pueden estar vacíos"

/-- Error message raised by `validar_entrada` for a negative numeric argument. -/
def mensajeNumero : String := "Los valores numéricos no pueden ser negativos"

/-- `Empleado(cedula, nombre, sueldo, departamento, cargo)` called with
positional arguments through the `validar_entrada` decorator: the wrapper
walks `args[1:]` in order and raises at the first blank string or negative
number, before `__init__` assigns any field. -/
def Empleado.init (cedula nombre : String) (sueldo : ℚ) (departamento cargo : String) :
    Except String Empleado :=
  if esBlanco cedula then .error mensajeTexto
  else if esBlanco nombre then .error mensajeTexto
  else if sueldo < 0 then .error mensajeNumero
  else if esBlanco departamento then .error mensajeTexto
  else if esBlanco cargo then .error mensajeTexto
  else .ok ⟨cedula, nombre, sueldo, departamento, cargo⟩

/-- A `DetalleNomina` object: constructor arguments plus the derived fields
set by `__init__`. -/
structure DetalleNomina where
  id : ℕ
  empleado : Empleado
  sueldo : ℚ
  bono : ℚ
  tot_ing : ℚ
  iess : ℚ
  prestamo : ℚ
  tot_des : ℚ
  neto : ℚ
  deriving DecidableEq, Repr

/-- `DetalleNomina.__init__`: `tot_ing = sueldo + bono`,
`iess = round(sueldo * 0.0945, 2)`, `tot_des = iess + prestamo`,
`neto = tot_ing - tot_des`. -/
def DetalleNomina.init (id : ℕ) (empleado : Empleado) (sueldo bono prestamo : ℚ) :
    DetalleNomina :=
  let tot_ing := sueldo + bono
  let iess := round2 (sueldo * 0.0945)
  let tot_des := iess + prestamo
  { id := id, empleado := empleado, sueldo := sueldo, bono := bono,
    tot_ing := tot_ing, iess := iess, prestamo := prestamo,
    tot_des := tot_des, neto := tot_ing - tot_des }

/-- A `Nomina` object. -/
structure Nomina where
  id : ℕ
  aniomes : String
  tot_ing : ℚ
  tot_des : ℚ
  neto : ℚ
  detalles : List DetalleNomina
  deriving DecidableEq, Repr

/-- `Nomina.BONO`. -/
def Nomina.BONO : ℚ := 50

/-- `Nomina.PRESTAMO`. -/
def Nomina.PRESTAMO : ℚ := 20

/-- `Nomina.__init__(id, aniomes)`: zero totals, empty detail list. -/
def Nomina.init (id : ℕ) (aniomes : String) : Nomina :=
  { id := id, aniomes := aniomes, tot_ing := 0, tot_des := 0, neto := 0, detalles := [] }

/-- `Nomina.calcular_totales`: sums over the detail lines. -/
def Nomina.calcular_totales (n : Nomina) : Nomina :=
  let ti := (n.detalles.map (fun d => d.tot_ing)).sum
  let td := (n.detalles.map (fun d => d.tot_des)).sum
  { n with tot_ing := ti, tot_des := td, neto := ti - td }

/-- A value in the statistics dictionary: a number or an employee name. -/
inductive Valor where
  | num : ℚ → Valor
  | texto : String → Valor
  deriving DecidableEq, Repr

/-- Python's `max(mejor :: resto, key = neto)`: keep the current maximum,
replace only on a strictly greater key, so ties go to the first occurrence. -/
def mayorNeto : DetalleNomina → List DetalleNomina → DetalleNomina
  | mejor, [] => mejor
  | mejor, d :: ds => mayorNeto (if mejor.neto < d.neto then d else mejor) ds

/-- Python's `min(mejor :: resto, key = neto)`: ties go to the first occurrence. -/
def menorNeto : DetalleNomina → List DetalleNomina → DetalleNomina
  | mejor, [] => mejor
  | mejor, d :: ds => menorNeto (if d.neto < mejor.neto then d else mejor) ds

/-- `Nomina.Resumen.generar_estadisticas`, as a function of the payroll's
detail list; the returned dictionary is an ordered key-value list. -/
def generar_estadisticas (detalles : List DetalleNomina) : List (String × Valor) :=
  match detalles with
  | [] => [("total_empleados", .num 0), ("promedio_sueldo", .num 0), ("total_neto", .num 0)]
  | d :: ds =>
    let todos := d :: ds
    let netos := todos.map (fun x => x.neto)
    let sueldos := todos.map (fun x => x.sueldo)
    let total_neto := netos.foldl (fun a b => a + b) 0
    let promedio_sueldo := sueldos.foldl (fun a b => a + b) 0 / (sueldos.length : ℚ)
    let altos := todos.filter (fun x => decide ((1000 : ℚ) < x.sueldo))
    let mayor := mayorNeto d ds
    let menor := menorNeto d ds
    [("total_empleados", .num (todos.length : ℚ)),
     ("total_neto_pagado", .num total_neto),
     ("promedio_sueldos", .num (round2 promedio_sueldo)),
     ("empleados_alto_sueldo", .num (altos.length : ℚ)),
     ("empleado_mayor_neto", .texto mayor.empleado.nombre),
     ("empleado_menor_neto", .texto menor.empleado.nombre),
     ("valor_mayor_neto", .num mayor.neto),
     ("valor_menor_neto", .num menor.neto)]

/-- One serialized record of the employee snapshot file:
`RepositorioEmpleados._serializar` stores `empleado.__dict__`, a dictionary
with exactly the five employee fields. -/
structure RegistroEmpleado where
  cedula : String
  nombre : String
  sueldo : ℚ
  departamento : String
  cargo : String
  deriving DecidableEq, Repr

/-- `RepositorioEmpleados._serializar`. -/
def serializar (e : Empleado) : RegistroEmpleado :=
  ⟨e.cedula, e.nombre, e.sueldo, e.departamento, e.cargo⟩

/-- `RepositorioEmpleados._deserializar`: `Empleado(**data)` passes the record
fields as keyword arguments, which the `validar_entrada` wrapper never
inspects (it only checks positional `args[1:]`), so construction never
raises here. -/
def deserializar (r : RegistroEmpleado) : Empleado :=
  ⟨r.cedula, r.nombre, r.sueldo, r.departamento, r.cargo⟩

/-- `RepositorioEmpleados.crear` acting on the snapshot contents `datos`:
the first component is the raised message or the returned `True`, the second
the snapshot contents after the call (a raise happens before the write, so
the file keeps its contents). -/
def crear (datos : List RegistroEmpleado) (empleado : Empleado) :
    Except String Bool × List RegistroEmpleado :=
  if datos.any (fun emp => emp.cedula == empleado.cedula) then
    (.error ("Ya existe un empleado con cédula " ++ empleado.cedula), datos)
  else
    (.ok true, datos ++ [serializar empleado])

/-- `RepositorioEmpleados.obtener`. -/
def obtener (datos : List RegistroEmpleado) (cedula : String) : Option Empleado :=
  (datos.find? (fun e => e.cedula == cedula)).map deserializar

/-- `RepositorioEmpleados.listar`. -/
def listar (datos : List RegistroEmpleado) : List Empleado :=
  datos.map deserializar

/-- `RepositorioEmpleados.actualizar`: scan for the first record with the
matching key, replace it in place and rewrite the snapshot; on no match
return `False` without writing. -/
def actualizar (cedula : String) (empleado : Empleado) :
    List RegistroEmpleado → Bool × List RegistroEmpleado
  | [] => (false, [])
  | emp :: resto =>
    if emp.cedula == cedula then (true, serializar empleado :: resto)
    else
      let r := actualizar cedula empleado resto
      (r.1, emp :: r.2)

/-- `RepositorioEmpleados.eliminar`: keep the records whose key differs and
report whether that dropped any. -/
def eliminar (cedula : String) (datos : List RegistroEmpleado) :
    Bool × List RegistroEmpleado :=
  let filtrados := datos.filter (fun emp => emp.cedula != cedula)
  if filtrados.length < datos.length then (true, filtrados) else (false, datos)

/-- `ServicioNomina._calcular_detalle_empleado`. -/
def calcular_detalle_empleado (empleado : Empleado) (id_detalle : ℕ) : DetalleNomina :=
  DetalleNomina.init id_detalle empleado empleado.sueldo Nomina.BONO Nomina.PRESTAMO

/-- The comprehension
`[self._calcular_detalle_empleado(emp, i+1) for i, emp in enumerate(empleados)]`,
generalized to start numbering at `i0` (the call site uses `i0 = 1`). -/
def construirDetalles (i0 : ℕ) : List Empleado → List DetalleNomina
  | [] => []
  | emp :: resto => calcular_detalle_empleado emp i0 :: construirDetalles (i0 + 1) resto

/-- `ServicioNomina.generar_nomina_mensual` over the snapshot contents
`datos`: raised message or returned payroll. -/
def generar_nomina_mensual (datos : List RegistroEmpleado) (aniomes : String) :
    Except String Nomina :=
  let empleados := listar datos
  if empleados.isEmpty then .error "No hay empleados registrados"
  else
    let nomina := Nomina.init 1 aniomes
    .ok (Nomina.calcular_totales { nomina with detalles := construirDetalles 1 empleados })

/-! ### Helper lemmas -/

theorem calcular_totales_detalles (n : Nomina) :
    (Nomina.calcular_totales n).detalles = n.detalles := rfl

theorem calcular_totales_id (n : Nomina) : (Nomina.calcular_totales n).id = n.id := rfl

theorem calcular_totales_aniomes (n : Nomina) :
    (Nomina.calcular_totales n).aniomes = n.aniomes := rfl

theorem calcular_detalle_id (e : Empleado) (i : ℕ) :
    (calcular_detalle_empleado e i).id = i := rfl

theorem calcular_detalle_empleado_eq (e : Empleado) (i : ℕ) :
    (calcular_detalle_empleado e i).empleado = e := rfl

theorem construirDetalles_map_id (i0 : ℕ) (es : List Empleado) :
    (construirDetalles i0 es).map (fun d => d.id) = List.range' i0 es.length := by
  induction es generalizing i0 with
  | nil => rfl
  | cons e resto ih => simp [construirDetalles, calcular_detalle_id, ih, List.range']

theorem construirDetalles_map_empleado (i0 : ℕ) (es : List Empleado) :
    (construirDetalles i0 es).map (fun d => d.empleado) = es := by
  induction es generalizing i0 with
  | nil => rfl
  | cons e resto ih => simp [construirDetalles, calcular_detalle_empleado_eq, ih]

/-- `eliminar` in closed form: the flag is whether some record matches, the
contents are the filtered list (which is the input itself when nothing
matches). -/
theorem eliminar_spec (ced : String) (datos : List RegistroEmpleado) :
    eliminar ced datos =
      (datos.any (fun r => r.cedula == ced), datos.filter (fun r => r.cedula != ced)) := by
  induction datos with
  | nil => rfl
  | cons r rs ih =>
    by_cases h : (r.cedula == ced) = true
    · have hp : (r.cedula != ced) = false := by simp [bne, h]
      have hf : (r :: rs).filter (fun x => x.cedula != ced) =
          rs.filter (fun x => x.cedula != ced) := by
        simp [List.filter_cons, hp]
      have hlen : (rs.filter (fun x => x.cedula != ced)).length < rs.length + 1 :=
        Nat.lt_succ_of_le (List.length_filter_le _ _)
      simp [eliminar, h, hf, hlen]
    · have hp : (r.cedula != ced) = true := by simp [bne, h]
      have hf : (r :: rs).filter (fun x => x.cedula != ced) =
          r :: rs.filter (fun x => x.cedula != ced) := by
        simp [List.filter_cons, hp]
      by_cases hc : (rs.filter (fun x => x.cedula != ced)).length < rs.length
      · have h2 := ih
        simp only [eliminar, if_pos hc] at h2
        obtain ⟨h21, h22⟩ := Prod.ext_iff.mp h2
        have hany : rs.any (fun x => x.cedula == ced) = true := h21.symm
        simp [eliminar, h, hf, hany, hc]
      · have h2 := ih
        simp only [eliminar, if_neg hc] at h2
        obtain ⟨h21, h22⟩ := Prod.ext_iff.mp h2
        have hany : rs.any (fun x => x.cedula == ced) = false := h21.symm
        simp [eliminar, h, hf, hany, hc]
        exact h22

/-- C1: a payroll line item over base salary `S`, bonus `b` and loan `l` has
`tot_ing = S + b`, `iess = round2 (S * 0.0945)` (banker's rounding to two
decimals), `tot_des = iess + l` and `neto = tot_ing - tot_des`; no other
field is rounded. -/
theorem C1_detalle_formulas (id : ℕ) (e : Empleado) (S b l : ℚ) :
    (DetalleNomina.init id e S b l).tot_ing = S + b ∧
    (DetalleNomina.init id e S b l).iess = round2 (S * 0.0945) ∧
    (DetalleNomina.init id e S b l).tot_des = (DetalleNomina.init id e S b l).iess + l ∧
    (DetalleNomina.init id e S b l).neto =
      (DetalleNomina.init id e S b l).tot_ing - (DetalleNomina.init id e S b l).tot_des :=
  ⟨rfl, rfl, rfl, rfl⟩

/-- C2: monthly payroll generation raises `No hay empleados registrados`
exactly when the repository lists no employees; over a non-empty listing of
`N` employees it returns a payroll with `id = 1` whose detail lines carry
`sequenceId` 1..N in listing order, one line per listed employee. -/
theorem C2_generar_nomina (datos : List RegistroEmpleado) (aniomes : String) :
    (generar_nomina_mensual datos aniomes = .error "No hay empleados registrados" ↔
      listar datos = []) ∧
    (listar datos ≠ [] →
      ∃ n : Nomina, generar_nomina_mensual datos aniomes = .ok n ∧
        n.id = 1 ∧ n.aniomes = aniomes ∧
        n.detalles.map (fun d => d.id) = List.range' 1 (listar datos).length ∧
        n.detalles.map (fun d => d.empleado) = listar datos) := by
  by_cases h : (listar datos).isEmpty = true
  · have he : listar datos = [] := List.isEmpty_iff.mp h
    constructor
    · simp [generar_nomina_mensual, h, he]
    · intro hne
      exact absurd he hne
  · have hne : listar datos ≠ [] := by
      simpa [List.isEmpty_iff] using h
    constructor
    · simp [generar_nomina_mensual, h, hne]
    · intro _
      have heq : generar_nomina_mensual datos aniomes =
          .ok (Nomina.calcular_totales
            { Nomina.init 1 aniomes with detalles := construirDetalles 1 (listar datos) }) := by
        simp [generar_nomina_mensual, h]
      exact ⟨_, heq, rfl, rfl,
        construirDetalles_map_id 1 (listar datos),
        construirDetalles_map_empleado 1 (listar datos)⟩

/-- Witness for C2 at a one-employee snapshot and at the empty snapshot. -/
theorem C2_generar_nomina_witness :
    (generar_nomina_mensual [] "202404" = .error "No hay empleados registrados") ∧
    (∃ n : Nomina,
      generar_nomina_mensual [⟨"1", "Ana", 800, "Ventas", "Analista"⟩] "202404" = .ok n ∧
      n.id = 1 ∧ n.aniomes = "202404" ∧
      n.detalles.map (fun d => d.id) =
        List.range' 1 (listar [⟨"1", "Ana", 800, "Ventas", "Analista"⟩]).length ∧
      n.detalles.map (fun d => d.empleado) = listar [⟨"1", "Ana", 800, "Ventas", "Analista"⟩]) :=
  ⟨(C2_generar_nomina [] "202404").1.mpr rfl,
   (C2_generar_nomina [⟨"1", "Ana", 800, "Ventas", "Analista"⟩] "202404").2 (by decide)⟩

/-- C3: every payroll produced by `generar_nomina_mensual` has
`tot_ing = Σ tot_ing` and `tot_des = Σ tot_des` over its detail lines and
`neto = tot_ing - tot_des`. -/
theorem C3_totales (datos : List RegistroEmpleado) (aniomes : String) (h : datos ≠ []) :
    ∃ n : Nomina, generar_nomina_mensual datos aniomes = .ok n ∧
      n.tot_ing = (n.detalles.map (fun d => d.tot_ing)).sum ∧
      n.tot_des = (n.detalles.map (fun d => d.tot_des)).sum ∧
      n.neto = n.tot_ing - n.tot_des := by
  have hne : (listar datos).isEmpty = false := by
    simp [listar, List.isEmpty_iff, h]
  have heq : generar_nomina_mensual datos aniomes =
      .ok (Nomina.calcular_totales
        { Nomina.init 1 aniomes with detalles := construirDetalles 1 (listar datos) }) := by
    simp [generar_nomina_mensual, hne]
  exact ⟨_, heq, rfl, rfl, rfl⟩

/-- Witness for C3 at a two-employee snapshot. -/
theorem C3_totales_witness :
    ∃ n : Nomina,
      generar_nomina_mensual
        [⟨"1", "Ana", 800, "Ventas", "Analista"⟩, ⟨"2", "Beto", 1200, "Ventas", "Gerente"⟩]
        "202404" = .ok n ∧
      n.tot_ing = (n.detalles.map (fun d => d.tot_ing)).sum ∧
      n.tot_des = (n.detalles.map (fun d => d.tot_des)).sum ∧
      n.neto = n.tot_ing - n.tot_des :=
  C3_totales
    [⟨"1", "Ana", 800, "Ventas", "Analista"⟩, ⟨"2", "Beto", 1200, "Ventas", "Gerente"⟩]
    "202404" (by decide)

/-- C4: `crear` on a snapshot already holding the key raises the duplicate
message and leaves the snapshot unchanged (if the key occurred exactly once
it still occurs exactly once); on an absent key it appends the serialized
entity and rewrites the snapshot. -/
theorem C4_crear (datos : List RegistroEmpleado) (e : Empleado) :
    (datos.any (fun r => r.cedula == e.cedula) = true →
      (crear datos e).1 = .error ("Ya existe un empleado con cédula " ++ e.cedula) ∧
      (crear datos e).2 = datos ∧
      (datos.countP (fun r => r.cedula == e.cedula) = 1 →
        (crear datos e).2.countP (fun r => r.cedula == e.cedula) = 1)) ∧
    (datos.any (fun r => r.cedula == e.cedula) = false →
      crear datos e = (.ok true, datos ++ [serializar e])) := by
  constructor
  · intro h
    refine ⟨?_, ?_, ?_⟩
    · simp [crear, h]
    · simp [crear, h]
    · intro h1
      simpa [crear, h] using h1
  · intro h
    simp [crear, h]

/-- Witness for C4: a duplicate create against a singleton snapshot, and a
create against the empty snapshot. -/
theorem C4_crear_witness :
    ((crear [⟨"1", "Ana", 800, "Ventas", "Analista"⟩] ⟨"1", "Eva", 900, "Ventas", "Jefa"⟩).2 =
      [⟨"1", "Ana", 800, "Ventas", "Analista"⟩] ∧
     (crear [⟨"1", "Ana", 800, "Ventas", "Analista"⟩]
        ⟨"1", "Eva", 900, "Ventas", "Jefa"⟩).2.countP (fun r => r.cedula == "1") = 1) ∧
    crear [] ⟨"1", "Eva", 900, "Ventas", "Jefa"⟩ =
      (.ok true, [serializar ⟨"1", "Eva", 900, "Ventas", "Jefa"⟩]) :=
  ⟨⟨((C4_crear [⟨"1", "Ana", 800, "Ventas", "Analista"⟩]
        ⟨"1", "Eva", 900, "Ventas", "Jefa"⟩).1 (by decide)).2.1,
    ((C4_crear [⟨"1", "Ana", 800, "Ventas", "Analista"⟩]
        ⟨"1", "Eva", 900, "Ventas", "Jefa"⟩).1 (by decide)).2.2 (by decide)⟩,
   (C4_crear [] ⟨"1", "Eva", 900, "Ventas", "Jefa"⟩).2 (by decide)⟩

/-- C5: `actualizar` on an absent key returns `false` and leaves the snapshot
unchanged; on a present key it returns `true` and replaces exactly the first
matching record in place, leaving every other record in its original
position. -/
theorem C5_actualizar (datos : List RegistroEmpleado) (ced : String) (e : Empleado) :
    ((∀ r ∈ datos, r.cedula ≠ ced) → actualizar ced e datos = (false, datos)) ∧
    ((∃ r ∈ datos, r.cedula = ced) →
      ∃ pre m post, datos = pre ++ m :: post ∧ (∀ r ∈ pre, r.cedula ≠ ced) ∧
        m.cedula = ced ∧
        actualizar ced e datos = (true, pre ++ serializar e :: post)) := by
  induction datos with
  | nil =>
    refine ⟨fun _ => rfl, ?_⟩
    rintro ⟨r, hr, -⟩
    exact absurd hr (List.not_mem_nil r)
  | cons r rs ih =>
    constructor
    · intro h
      have hr : r.cedula ≠ ced := h r (List.mem_cons_self r rs)
      have hb : (r.cedula == ced) = false := by simp [hr]
      have htl := ih.1 (fun x hx => h x (List.mem_cons_of_mem r hx))
      simp [actualizar, hb, htl]
    · rintro ⟨x, hx, hxe⟩
      by_cases hr : r.cedula = ced
      · refine ⟨[], r, rs, by simp, by simp, hr, ?_⟩
        simp [actualizar, hr]
      · have hb : (r.cedula == ced) = false := by simp [hr]
        have hmem : ∃ y ∈ rs, y.cedula = ced := by
          rcases List.mem_cons.mp hx with heq | hx2
          · exact absurd (heq ▸ hxe) hr
          · exact ⟨x, hx2, hxe⟩
        obtain ⟨pre, m, post, hdec, hpre, hm, hact⟩ := ih.2 hmem
        refine ⟨r :: pre, m, post, by simp [hdec], ?_, hm, ?_⟩
        · intro y hy
          rcases List.mem_cons.mp hy with heq | hy2
          · exact heq ▸ hr
          · exact hpre y hy2
        · simp [actualizar, hb, hact]

/-- Witness for C5: an update on an absent key and one on a present key. -/
theorem C5_actualizar_witness :
    (actualizar "9" ⟨"9", "Eva", 900, "Ventas", "Jefa"⟩
      [⟨"1", "Ana", 800, "Ventas", "Analista"⟩] =
      (false, [⟨"1", "Ana", 800, "Ventas", "Analista"⟩])) ∧
    (∃ pre m post,
      ([⟨"1", "Ana", 800, "Ventas", "Analista"⟩, ⟨"2", "Beto", 1200, "Ventas", "Gerente"⟩] :
        List RegistroEmpleado) = pre ++ m :: post ∧
      (∀ r ∈ pre, r.cedula ≠ "2") ∧ m.cedula = "2" ∧
      actualizar "2" ⟨"2", "Eva", 900, "Ventas", "Jefa"⟩
        [⟨"1", "Ana", 800, "Ventas", "Analista"⟩, ⟨"2", "Beto", 1200, "Ventas", "Gerente"⟩] =
        (true, pre ++ serializar ⟨"2", "Eva", 900, "Ventas", "Jefa"⟩ :: post)) :=
  ⟨(C5_actualizar [⟨"1", "Ana", 800, "Ventas", "Analista"⟩] "9"
      ⟨"9", "Eva", 900, "Ventas", "Jefa"⟩).1 (by decide),
   (C5_actualizar
      [⟨"1", "Ana", 800, "Ventas", "Analista"⟩, ⟨"2", "Beto", 1200, "Ventas", "Gerente"⟩] "2"
      ⟨"2", "Eva", 900, "Ventas", "Jefa"⟩).2 (by decide)⟩

/-- Counterexample to C6 as stated: on a snapshot holding two records with
key `"1"` (reachable, since `actualizar` may store an entity whose key
differs from the scanned key), `eliminar "1"` removes both records — not
exactly one. -/
theorem C6_eliminar_counterexample :
    (eliminar "1" [⟨"1", "Ana", 800, "Ventas", "Analista"⟩,
        ⟨"1", "Eva", 900, "Ventas", "Jefa"⟩]).1 = true ∧
    (eliminar "1" [⟨"1", "Ana", 800, "Ventas", "Analista"⟩,
        ⟨"1", "Eva", 900, "Ventas", "Jefa"⟩]).2.length ≠
      ([⟨"1", "Ana", 800, "Ventas", "Analista"⟩,
        ⟨"1", "Eva", 900, "Ventas", "Jefa"⟩] : List RegistroEmpleado).length - 1 := by
  decide

/-- C6 amended: `eliminar` on an absent key returns `false` and leaves the
snapshot unchanged; on a present key it returns `true` and removes every
record with that key, keeping the survivors in original order (the result is
a subsequence); when the key occurs exactly once, exactly one record is
removed. -/
theorem C6_eliminar (datos : List RegistroEmpleado) (ced : String) :
    ((∀ r ∈ datos, r.cedula ≠ ced) → eliminar ced datos = (false, datos)) ∧
    ((∃ r ∈ datos, r.cedula = ced) →
      eliminar ced datos = (true, datos.filter (fun r => r.cedula != ced))) ∧
    List.Sublist (eliminar ced datos).2 datos ∧
    (datos.countP (fun r => r.cedula == ced) = 1 →
      (eliminar ced datos).2.length + 1 = datos.length) := by
  refine ⟨?_, ?_, ?_, ?_⟩
  · intro h
    have hany : datos.any (fun r => r.cedula == ced) = false := by
      simp only [List.any_eq_false]
      intro r hr
      simp [h r hr]
    have hfil : datos.filter (fun r => r.cedula != ced) = datos := by
      rw [List.filter_eq_self]
      intro r hr
      simp [bne, h r hr]
    rw [eliminar_spec, hany, hfil]
  · rintro ⟨r, hr, hre⟩
    have hany : datos.any (fun x => x.cedula == ced) = true :=
      List.any_eq_true.mpr ⟨r, hr, by simp [hre]⟩
    rw [eliminar_spec, hany]
  · rw [eliminar_spec]
    exact List.filter_sublist datos
  · intro h1
    rw [eliminar_spec]
    have hc : (datos.filter (fun r => r.cedula != ced)).length =
        datos.countP (fun r => r.cedula != ced) :=
      (List.countP_eq_length_filter _ _).symm
    have hsplit : datos.length =
        datos.countP (fun r => r.cedula == ced) +
          datos.countP (fun r => r.cedula != ced) := by
      have := List.length_eq_countP_add_countP (l := datos) (fun r => r.cedula == ced)
      simpa [bne] using this
    simp only [hc]
    omega

/-- Witness for C6 amended: absent key, present key, and a key occurring
exactly once. -/
theorem C6_eliminar_witness :
    (eliminar "9" [⟨"1", "Ana", 800, "Ventas", "Analista"⟩] =
      (false, [⟨"1", "Ana", 800, "Ventas", "Analista"⟩])) ∧
    (eliminar "2" [⟨"1", "Ana", 800, "Ventas", "Analista"⟩,
        ⟨"2", "Beto", 1200, "Ventas", "Gerente"⟩] =
      (true, ([⟨"1", "Ana", 800, "Ventas", "Analista"⟩,
        ⟨"2", "Beto", 1200, "Ventas", "Gerente"⟩] : List RegistroEmpleado).filter
          (fun r => r.cedula != "2"))) ∧
    ((eliminar "2" [⟨"1", "Ana", 800, "Ventas", "Analista"⟩,
        ⟨"2", "Beto", 1200, "Ventas", "Gerente"⟩]).2.length + 1 =
      ([⟨"1", "Ana", 800, "Ventas", "Analista"⟩,
        ⟨"2", "Beto", 1200, "Ventas", "Gerente"⟩] : List RegistroEmpleado).length) :=
  ⟨(C6_eliminar [⟨"1", "Ana", 800, "Ventas", "Analista"⟩] "9").1 (by decide),
   (C6_eliminar [⟨"1", "Ana", 800, "Ventas", "Analista"⟩,
      ⟨"2", "Beto", 1200, "Ventas", "Gerente"⟩] "2").2.1 (by decide),
   (C6_eliminar [⟨"1", "Ana", 800, "Ventas", "Analista"⟩,
      ⟨"2", "Beto", 1200, "Ventas", "Gerente"⟩] "2").2.2.2 (by decide)⟩

/-- C7: the validating `Empleado` constructor raises (before producing any
object) whenever some string argument is blank after trimming or the salary
is negative, and succeeds — producing exactly the given fields — whenever
every string argument is non-blank and the salary is non-negative. -/
theorem C7_validacion (ced nom : String) (s : ℚ) (dep car : String) :
    (((esBlanco ced || esBlanco nom || esBlanco dep || esBlanco car) = true ∨ s < 0) →
      ∃ msg, Empleado.init ced nom s dep car = .error msg) ∧
    (esBlanco ced = false → esBlanco nom = false → esBlanco dep = false →
      esBlanco car = false → 0 ≤ s →
      Empleado.init ced nom s dep car = .ok ⟨ced, nom, s, dep, car⟩) := by
  constructor
  · intro h
    by_cases h1 : esBlanco ced = true
    · exact ⟨mensajeTexto, by simp [Empleado.init, h1]⟩
    · by_cases h2 : esBlanco nom = true
      · exact ⟨mensajeTexto, by simp [Empleado.init, h1, h2]⟩
      · by_cases hs : s < 0
        · exact ⟨mensajeNumero, by simp [Empleado.init, h1, h2, hs]⟩
        · by_cases h3 : esBlanco dep = true
          · exact ⟨mensajeTexto, by simp [Empleado.init, h1, h2, hs, h3]⟩
          · by_cases h4 : esBlanco car = true
            · exact ⟨mensajeTexto, by simp [Empleado.init, h1, h2, hs, h3, h4]⟩
            · exfalso
              rcases h with hb | hneg
              · simp [h1, h2, h3, h4] at hb
              · exact hs hneg
  · intro h1 h2 h3 h4 hs
    have hns : ¬ s < 0 := not_lt.mpr hs
    simp [Empleado.init, h1, h2, h3, h4, hns]

/-- Witness for C7: a blank cedula is rejected; valid fields are accepted. -/
theorem C7_validacion_witness :
    (∃ msg, Empleado.init "  " "Ana" 800 "Ventas" "Analista" = .error msg) ∧
    Empleado.init "1" "Ana" 800 "Ventas" "Analista" =
      .ok ⟨"1", "Ana", 800, "Ventas", "Analista"⟩ :=
  ⟨(C7_validacion "  " "Ana" 800 "Ventas" "Analista").1 (Or.inl (by decide)),
   (C7_validacion "1" "Ana" 800 "Ventas" "Analista").2 (by decide) (by decide) (by decide)
     (by decide) (by norm_num)⟩

/-- C8: for every valid employee, deserializing the serialized record gives
the employee back. -/
theorem C8_roundtrip (e : Empleado)
    (h : esBlanco e.cedula = false ∧ esBlanco e.nombre = false ∧ 0 ≤ e.sueldo ∧
      esBlanco e.departamento = false ∧ esBlanco e.cargo = false) :
    deserializar (serializar e) = e := by
  cases e
  rfl

/-- Witness for C8 at a concrete valid employee. -/
theorem C8_roundtrip_witness :
    (esBlanco "1" = false ∧ esBlanco "Ana" = false ∧ (0 : ℚ) ≤ 800 ∧
      esBlanco "Ventas" = false ∧ esBlanco "Analista" = false) ∧
    deserializar (serializar ⟨"1", "Ana", 800, "Ventas", "Analista"⟩) =
      ⟨"1", "Ana", 800, "Ventas", "Analista"⟩ :=
  ⟨⟨by decide, by decide, by norm_num, by decide, by decide⟩,
   C8_roundtrip ⟨"1", "Ana", 800, "Ventas", "Analista"⟩
     ⟨by decide, by decide, by norm_num, by decide, by decide⟩⟩

/-- Counterexample to C9 as stated: on the empty detail list the statistics
dictionary does not carry a zero under the high-salary-count key nor under
the extremal net-pay keys — those entries are simply absent, not zero. -/
theorem C9_estadisticas_counterexample :
    (generar_estadisticas []).lookup "empleados_alto_sueldo" = none ∧
    ¬ (generar_estadisticas []).lookup "empleados_alto_sueldo" = some (Valor.num 0) ∧
    ¬ (generar_estadisticas []).lookup "valor_mayor_neto" = some (Valor.num 0) ∧
    ¬ (generar_estadisticas []).lookup "valor_menor_neto" = some (Valor.num 0) := by
  decide

/-- C9 amended: on the empty detail list the generator returns, without
raising, a dictionary with exactly three entries — employee count, an
average-salary field and a total-net field, all zero, the latter two under
keys that differ from the non-empty case — while the high-salary count, the
extremal net-pay values and both name fields are unset. -/
theorem C9_estadisticas_vacias :
    generar_estadisticas [] =
      [("total_empleados", Valor.num 0), ("promedio_sueldo", Valor.num 0),
       ("total_neto", Valor.num 0)] ∧
    (generar_estadisticas []).lookup "total_neto_pagado" = none ∧
    (generar_estadisticas []).lookup "promedio_sueldos" = none ∧
    (generar_estadisticas []).lookup "empleado_mayor_neto" = none ∧
    (generar_estadisticas []).lookup "empleado_menor_neto" = none := by
  decide

/-- C10: keyword-argument construction bypasses validation: a stored record
with blank strings and a negative salary deserializes, without any error,
into an `Empleado` violating the construction invariants, and `obtener` and
`listar` happily return it — while the validating constructor rejects the
same field values. -/
theorem C10_deserializar_sin_validacion :
    (esBlanco (⟨"", " ", -5, "", ""⟩ : RegistroEmpleado).nombre = true ∧
      (⟨"", " ", -5, "", ""⟩ : RegistroEmpleado).sueldo < 0) ∧
    deserializar ⟨"", " ", -5, "", ""⟩ = ⟨"", " ", -5, "", ""⟩ ∧
    listar [⟨"", " ", -5, "", ""⟩] = [⟨"", " ", -5, "", ""⟩] ∧
    obtener [⟨"", " ", -5, "", ""⟩] "" = some ⟨"", " ", -5, "", ""⟩ ∧
    Empleado.init "" " " (-5) "" "" = .error mensajeTexto := by
  refine ⟨⟨by decide, by norm_num⟩, rfl, rfl, rfl, rfl⟩

end Damian
